import Mathlib

/-!
Shallow embedding of `server/fastapi/lazy_model.py` (class `LazyIRCModel`),
the lazy-loading wrapper around a chronic-kidney-disease staging model.

Modelling choices:
* Python dicts are insertion-ordered association lists with unique keys;
  `dictSet` reproduces `d[k] = v` (update in place if present, else append).
* Floats are rationals (ℚ); `np.random.random()` is an explicit parameter
  `r` with `0 ≤ r < 1`.
* The pickled model object is abstract: `ModelObj` is either `None` or an
  object with a type name and an optional predict capability (`hasattr`
  checks); its `predict` / `predict_proba` / `feature_importances_`
  behaviours are abstract functions, with `Option` results standing for
  "raised an exception".
* An uncaught Python exception reaching the caller is `Except.error`;
  the only uncaught exception in `predict` is the `KeyError` raised by
  `df['Créatinine (mg/L)']` in `_fallback_predict`.
-/

namespace LazyModel

/-- A patient record: insertion-ordered mapping from feature name to value
(`input_data : Dict[str, Any]`, numeric values modelled as ℚ). -/
abbrev Record := List (String × ℚ)

/-- A stage-probability dictionary (`Dict[int, float]`). -/
abbrev IntDict := List (Int × ℚ)

/-- Python dict assignment `d[k] = v`: overwrite in place when the key is
present, otherwise append at the end (insertion order). -/
def dictSet (d : IntDict) (k : Int) (v : ℚ) : IntDict :=
  if (d.lookup k).isSome then
    d.map (fun kv => if kv.1 == k then (k, v) else kv)
  else
    d ++ [(k, v)]

/-- The single feature read by the rule-based fallback predictor. -/
def creatinineKey : String := "Créatinine (mg/L)"

/-- The creatinine threshold table of `_fallback_predict` (lines 115-126):
first true branch wins. -/
def fallbackStage (creatinine : ℚ) : Int :=
  if creatinine > 200 then 5
  else if creatinine > 100 then 4
  else if creatinine > 50 then 3
  else if creatinine > 20 then 2
  else if creatinine > 15 then 1
  else 0

/-- `range(6)` as stage labels. -/
def stageRange : List Int := [0, 1, 2, 3, 4, 5]

/-- `_generate_fallback_probabilities(predicted_stage)` with the random draw
`r` (= `np.random.random()`) made explicit: confidence `0.75 + r * 0.2`,
a dict initialised to `{0:0, 1:0, 2:0, 3:0, 4:0, 5:0}`, the predicted stage
set to the confidence, and the remaining mass spread over the other stages
of `range(6)`. -/
def generateFallbackProbabilities (predicted_stage : Int) (r : ℚ) : IntDict :=
  let confidence : ℚ := 3/4 + r * (2/10)
  let remaining : ℚ := 1 - confidence
  let init : IntDict := [(0, 0), (1, 0), (2, 0), (3, 0), (4, 0), (5, 0)]
  let d := dictSet init predicted_stage confidence
  let other_stages := stageRange.filter (fun s => s != predicted_stage)
  other_stages.foldl (fun acc s => dictSet acc s (remaining / other_stages.length)) d

/-- The fixed priority table of `_generate_fallback_feature_importance`
(lines 190-202), in source order. -/
def priorityTable : List (String × ℚ) :=
  [("Créatinine (mg/L)", 35/100),
   ("Urée (g/L)", 25/100),
   ("Age", 15/100),
   ("TA (mmHg)/Systole", 10/100),
   ("Na^+ (meq/L)", 5/100),
   ("Score de Glasgow (/15)", 5/100),
   ("Sexe_M", 2/100),
   ("Anémie_True", 3/100),
   ("Choc de Pointe/Perçu", 2/100),
   ("Enquête Sociale/Tabac_True", 15/1000),
   ("Enquête Sociale/Alcool_True", 15/1000)]

/-- `_generate_fallback_feature_importance(df)`: keep only the prioritized
names present in the record's columns, then normalize by the sum.  When the
filtered table is empty the normalizing comprehension iterates over nothing,
so the division is never evaluated (no `ZeroDivisionError`). -/
def generateFallbackFeatureImportance (rec : Record) : List (String × ℚ) :=
  let features := rec.map Prod.fst
  let filtered := priorityTable.filter (fun kv => features.contains kv.1)
  let total := (filtered.map Prod.snd).sum
  filtered.map (fun kv => (kv.1, kv.2 / total))

/-- Abstract capabilities of a model object that `hasattr(·, 'predict')`:
each `Option`-valued result models "the call raised".  `predictProba` and
`featureImportances` are `none` when the corresponding attribute is absent. -/
structure PredCap where
  predictFn : Record → Option Int
  predictProba : Option (Record → Option IntDict)
  featureImportances : Option (Record → Option (List (String × ℚ)))

/-- `self._model`: `None`, or an object with a runtime type name and an
optional predict capability (`cap = none` models `hasattr(m, 'predict')`
being false). -/
inductive ModelObj
  | noneObj : ModelObj
  | obj (typeName : String) (cap : Option PredCap) : ModelObj

/-- The mutable fields of a `LazyIRCModel` instance. -/
structure ModelState where
  model : ModelObj
  feature_importance : Option (List (String × ℚ))
  stage_probabilities : Option IntDict
  model_loading : Bool
  model_loaded : Bool

/-- State right after `__init__` (which has already called
`_start_loading_model`, setting `_model_loading = True`). -/
def initState : ModelState :=
  { model := ModelObj.noneObj
    feature_importance := none
    stage_probabilities := none
    model_loading := true
    model_loaded := false }

/-- `is_model_ready()`. -/
def is_model_ready (st : ModelState) : Bool := st.model_loaded

/-- The uncaught Python exceptions of the embedded methods. -/
inductive PyErr
  | keyError (key : String)
deriving DecidableEq

/-- `_fallback_predict(df)`: read the creatinine column (raising `KeyError`
when absent), bucket it through the threshold table, and cache fallback
probabilities (random draw `r`) and fallback feature importance. -/
def fallbackPredict (st : ModelState) (rec : Record) (r : ℚ) :
    Except PyErr (Int × ModelState) :=
  match rec.lookup creatinineKey with
  | none => Except.error (PyErr.keyError creatinineKey)
  | some creatinine =>
    let stage := fallbackStage creatinine
    let st1 := { st with
      stage_probabilities := some (generateFallbackProbabilities stage r)
      feature_importance := some (generateFallbackFeatureImportance rec) }
    Except.ok (stage, st1)

/-- `_calculate_feature_importance(df)`: use `feature_importances_` when
present (normalizing the raw weights), fall back to the synthetic table on
absence or on any exception (including the `ZeroDivisionError` when the raw
weights are nonempty and sum to 0). -/
def calculateFeatureImportance (cap : PredCap) (rec : Record) :
    List (String × ℚ) :=
  match cap.featureImportances with
  | none => generateFallbackFeatureImportance rec
  | some f =>
    match f rec with
    | none => generateFallbackFeatureImportance rec
    | some raw =>
      let total := (raw.map Prod.snd).sum
      if total = 0 ∧ raw ≠ [] then generateFallbackFeatureImportance rec
      else raw.map (fun kv => (kv.1, kv.2 / total))

/-- The body of the `except` handler around the real-model path: when
`_fallback_predict` raised inside the `try` (only a `KeyError`, raised
before any cache write), the handler calls `_fallback_predict` again, whose
own `KeyError` propagates to the caller.  `r2` is the draw of the second
call. -/
def tryFallback (st : ModelState) (rec : Record) (r r2 : ℚ) :
    Except PyErr (Int × ModelState) :=
  match fallbackPredict st rec r with
  | Except.ok res => Except.ok res
  | Except.error _ => fallbackPredict st rec r2

/-- `predict(input_data)` with the possible random draws `r` (first draw)
and `r2` (draw made inside the `except` handler) made explicit.  Mirrors
lines 65-108: unloaded states route to `_fallback_predict` outside any
`try`; loaded objects without a `predict` attribute route to it inside the
`try`; exceptions from the real model's `predict` / `predict_proba` are
caught and routed to `_fallback_predict` from the `except` handler. -/
def predict (st : ModelState) (rec : Record) (r r2 : ℚ) :
    Except PyErr (Int × ModelState) :=
  if st.model_loaded = false then
    fallbackPredict st rec r
  else
    match st.model with
    | ModelObj.noneObj => tryFallback st rec r r2
    | ModelObj.obj _ none => tryFallback st rec r r2
    | ModelObj.obj _ (some cap) =>
      match cap.predictFn rec with
      | none => fallbackPredict st rec r2
      | some predicted_stage =>
        match cap.predictProba with
        | some f =>
          match f rec with
          | none => fallbackPredict st rec r2
          | some classProbs =>
            Except.ok (predicted_stage, { st with
              stage_probabilities := some classProbs
              feature_importance := some (calculateFeatureImportance cap rec) })
        | none =>
          Except.ok (predicted_stage, { st with
            stage_probabilities :=
              some (generateFallbackProbabilities predicted_stage r)
            feature_importance := some (calculateFeatureImportance cap rec) })

/-- The state after a `predict` call (an uncaught `KeyError` is raised
before any cache write, so the state is unchanged on error). -/
def statePostPredict (st : ModelState) (rec : Record) (r r2 : ℚ) : ModelState :=
  match predict st rec r r2 with
  | Except.ok (_, st1) => st1
  | Except.error _ => st

/-- `get_stage_probabilities()`: the cached dict, or `{}` when the cache is
`None` (or falsy, i.e. empty). -/
def get_stage_probabilities (st : ModelState) : IntDict :=
  match st.stage_probabilities with
  | none => []
  | some d => if d.isEmpty then [] else d

/-- `get_feature_importance()`: the cached dict, or `{}` when the cache is
`None` (or falsy, i.e. empty). -/
def get_feature_importance (st : ModelState) : List (String × ℚ) :=
  match st.feature_importance with
  | none => []
  | some d => if d.isEmpty then [] else d

/-- The dict returned by `get_status()`. -/
structure Status where
  model_loaded : Bool
  model_loading : Bool
  model_type : String
deriving DecidableEq

/-- `type(self._model).__name__ if self._model else "None"`. -/
def modelTypeName : ModelObj → String
  | ModelObj.noneObj => "None"
  | ModelObj.obj n _ => n

/-- `get_status()`. -/
def get_status (st : ModelState) : Status :=
  { model_loaded := st.model_loaded
    model_loading := st.model_loading
    model_type := modelTypeName st.model }

/-- `get_status()` as a state-passing method call: it returns its result and
leaves the instance state untouched. -/
def get_statusM (st : ModelState) : Status × ModelState := (get_status st, st)

/-- Outcome of the background `_load_model` thread: successful unpickling
of some object, or any failure. -/
inductive LoadOutcome
  | success (typeName : String) (cap : Option PredCap)
  | failure

/-- The capability record of the untrained fallback
`RandomForestClassifier`: it has a `predict` attribute but calling it
raises `NotFittedError`, and accessing `feature_importances_` on an
unfitted estimator behaves as an absent attribute. -/
def fallbackCap : PredCap :=
  { predictFn := fun _ => none
    predictProba := some (fun _ => none)
    featureImportances := none }

/-- `_create_fallback_model()`: store the fallback classifier and set
`_model_loaded = True`. -/
def createFallbackModel (st : ModelState) : ModelState :=
  { st with model := ModelObj.obj "RandomForestClassifier" (some fallbackCap)
            model_loaded := true }

/-- Successful branch of `_load_model`: store the unpickled object, set
`_model_loaded = True`, `_model_loading = False`. -/
def loadSuccess (st : ModelState) (tn : String) (cap : Option PredCap) :
    ModelState :=
  { st with model := ModelObj.obj tn cap
            model_loaded := true
            model_loading := false }

/-- Failure branch of `_load_model`: clear `_model_loading`, then build the
fallback model. -/
def loadFailure (st : ModelState) : ModelState :=
  createFallbackModel { st with model_loading := false }

/-- Completion of the background load thread. -/
def completeLoad (st : ModelState) : LoadOutcome → ModelState
  | LoadOutcome.success tn cap => loadSuccess st tn cap
  | LoadOutcome.failure => loadFailure st

/-- A caller-side `predict` invocation with its random draws. -/
structure PredEvent where
  record : Record
  r : ℚ
  r2 : ℚ

/-- Apply one `predict` call to the state. -/
def applyCall (st : ModelState) (e : PredEvent) : ModelState :=
  statePostPredict st e.record e.r e.r2

/-- Apply a sequence of `predict` calls. -/
def applyCalls (st : ModelState) (evs : List PredEvent) : ModelState :=
  evs.foldl applyCall st

/-- A full execution: the constructor, some `predict` calls before the
background load completes, the (unique) load completion, and some calls
after it. -/
def runTrace (pre : List PredEvent) (o : LoadOutcome) (post : List PredEvent) :
    ModelState :=
  applyCalls (completeLoad (applyCalls initState pre) o) post

/-- States where `predict` routes to the rule-based fallback: the model is
not loaded yet, or no object is stored, or the stored object has no
`predict` attribute, or its `predict` raises on this record. -/
def noUsableModel (st : ModelState) (rec : Record) : Prop :=
  st.model_loaded = false ∨
  st.model = ModelObj.noneObj ∨
  (∃ n, st.model = ModelObj.obj n none) ∨
  (∃ n cap, st.model = ModelObj.obj n (some cap) ∧ cap.predictFn rec = none)

/-- A possible unpickled model object whose `predict` returns stage 7 and
which has neither `predict_proba` nor `feature_importances_` (nothing in
`predict` constrains the class labels of the deserialized artifact). -/
def stageSevenCap : PredCap :=
  { predictFn := fun _ => some 7
    predictProba := none
    featureImportances := none }

/-- The wrapper state after such an artifact loads successfully. -/
def stageSevenState : ModelState :=
  loadSuccess initState "DecisionTreeRegressor" (some stageSevenCap)

end LazyModel

namespace LazyModel

/-! ### Helper lemmas about the threshold table and the synthetic outputs -/

/-- The threshold bucketing always lands in {0..5}. -/
theorem fallbackStage_bounds (c : ℚ) : 0 ≤ fallbackStage c ∧ fallbackStage c ≤ 5 := by
  unfold fallbackStage
  split_ifs <;> omega

set_option maxHeartbeats 1600000 in
/-- Shape of the synthetic probability dict for a predicted stage in {0..5}:
keys are exactly 0..5 in order, the predicted stage holds the confidence,
every other stage holds a fifth of the remaining mass, and the values sum
to 1. -/
theorem genProbs_spec (s : Int) (r : ℚ) (hs0 : 0 ≤ s) (hs5 : s ≤ 5) :
    (generateFallbackProbabilities s r).map Prod.fst = [0, 1, 2, 3, 4, 5] ∧
    (generateFallbackProbabilities s r).lookup s = some (3/4 + r * (2/10)) ∧
    (∀ t, t ∈ stageRange → t ≠ s →
      (generateFallbackProbabilities s r).lookup t =
        some ((1 - (3/4 + r * (2/10))) / 5)) ∧
    ((generateFallbackProbabilities s r).map Prod.snd).sum = 1 := by
  interval_cases s <;>
    refine ⟨rfl, rfl, ?_, by simp [generateFallbackProbabilities, dictSet, stageRange]; ring⟩ <;>
    · intro t ht hne
      fin_cases ht <;> first | exact absurd rfl hne | rfl

set_option maxHeartbeats 1600000 in
/-- Shape of the synthetic probability dict for a predicted stage outside
{0..5}: the assignment `d[predicted_stage] = confidence` appends a seventh
key, and each of the six stages 0..5 then receives a sixth of the remaining
mass; the values still sum to 1. -/
theorem genProbs_out_spec (s : Int) (r : ℚ) (hs : s < 0 ∨ 5 < s) :
    (generateFallbackProbabilities s r).map Prod.fst = [0, 1, 2, 3, 4, 5, s] ∧
    (generateFallbackProbabilities s r).lookup s = some (3/4 + r * (2/10)) ∧
    (∀ t, t ∈ stageRange →
      (generateFallbackProbabilities s r).lookup t =
        some ((1 - (3/4 + r * (2/10))) / 6)) ∧
    ((generateFallbackProbabilities s r).map Prod.snd).sum = 1 := by
  have hp0 : ¬ (s = 0) := by omega
  have hp1 : ¬ (s = 1) := by omega
  have hp2 : ¬ (s = 2) := by omega
  have hp3 : ¬ (s = 3) := by omega
  have hp4 : ¬ (s = 4) := by omega
  have hp5 : ¬ (s = 5) := by omega
  have hq0 : ¬ ((0:Int) = s) := by omega
  have hq1 : ¬ ((1:Int) = s) := by omega
  have hq2 : ¬ ((2:Int) = s) := by omega
  have hq3 : ¬ ((3:Int) = s) := by omega
  have hq4 : ¬ ((4:Int) = s) := by omega
  have hq5 : ¬ ((5:Int) = s) := by omega
  have hb0 : ((0:Int) == s) = false := beq_eq_false_iff_ne.2 hq0
  have hb1 : ((1:Int) == s) = false := beq_eq_false_iff_ne.2 hq1
  have hb2 : ((2:Int) == s) = false := beq_eq_false_iff_ne.2 hq2
  have hb3 : ((3:Int) == s) = false := beq_eq_false_iff_ne.2 hq3
  have hb4 : ((4:Int) == s) = false := beq_eq_false_iff_ne.2 hq4
  have hb5 : ((5:Int) == s) = false := beq_eq_false_iff_ne.2 hq5
  have hc0 : (s == (0:Int)) = false := beq_eq_false_iff_ne.2 hp0
  have hc1 : (s == (1:Int)) = false := beq_eq_false_iff_ne.2 hp1
  have hc2 : (s == (2:Int)) = false := beq_eq_false_iff_ne.2 hp2
  have hc3 : (s == (3:Int)) = false := beq_eq_false_iff_ne.2 hp3
  have hc4 : (s == (4:Int)) = false := beq_eq_false_iff_ne.2 hp4
  have hc5 : (s == (5:Int)) = false := beq_eq_false_iff_ne.2 hp5
  have key : generateFallbackProbabilities s r =
      [(0, (1 - (3/4 + r * (2/10))) / 6), (1, (1 - (3/4 + r * (2/10))) / 6),
       (2, (1 - (3/4 + r * (2/10))) / 6), (3, (1 - (3/4 + r * (2/10))) / 6),
       (4, (1 - (3/4 + r * (2/10))) / 6), (5, (1 - (3/4 + r * (2/10))) / 6),
       (s, 3/4 + r * (2/10))] := by
    unfold generateFallbackProbabilities stageRange
    simp [dictSet, List.lookup, List.filter, bne, hp0, hp1, hp2, hp3, hp4, hp5,
      hq0, hq1, hq2, hq3, hq4, hq5, hb0, hb1, hb2, hb3, hb4, hb5,
      hc0, hc1, hc2, hc3, hc4, hc5]
  refine ⟨?_, ?_, ?_, ?_⟩
  · rw [key]; rfl
  · rw [key]
    simp [List.lookup, hc0, hc1, hc2, hc3, hc4, hc5]
  · intro t ht
    rw [key]
    fin_cases ht <;> simp [List.lookup, hb0, hb1, hb2, hb3, hb4, hb5]
  · rw [key]
    simp
    ring

/-- Summing after dividing every value by a constant. -/
theorem sum_map_div (l : List (String × ℚ)) (c : ℚ) :
    (l.map (fun kv => kv.2 / c)).sum = (l.map Prod.snd).sum / c := by
  induction l with
  | nil => simp
  | cons a t ih => simp [ih, add_div]

/-- Every weight of the fixed priority table is positive. -/
theorem priorityTable_pos : ∀ kv ∈ priorityTable, 0 < kv.2 := by
  intro kv h
  fin_cases h <;> norm_num [priorityTable]

/-- The synthetic importance keys are the table filtered by presence in the
record, in table order. -/
theorem genFFI_keys (rec : Record) :
    (generateFallbackFeatureImportance rec).map Prod.fst =
      (priorityTable.filter (fun kv => (rec.map Prod.fst).contains kv.1)).map Prod.fst := by
  unfold generateFallbackFeatureImportance
  rw [List.map_map]
  rfl

/-- A name survives in the synthetic importance mapping exactly when it is
both a prioritized name and a feature of the record. -/
theorem genFFI_mem (rec : Record) (k : String) :
    k ∈ (generateFallbackFeatureImportance rec).map Prod.fst ↔
      k ∈ priorityTable.map Prod.fst ∧ k ∈ rec.map Prod.fst := by
  unfold generateFallbackFeatureImportance
  simp [List.mem_map, List.mem_filter]

/-- When at least one prioritized name is present, the renormalized weights
sum to 1 (the filtered total is positive, so the division is by a nonzero
number). -/
theorem genFFI_sum (rec : Record)
    (hne : priorityTable.filter (fun kv => (rec.map Prod.fst).contains kv.1) ≠ []) :
    ((generateFallbackFeatureImportance rec).map Prod.snd).sum = 1 := by
  unfold generateFallbackFeatureImportance
  set filtered := priorityTable.filter (fun kv => (rec.map Prod.fst).contains kv.1) with hf
  have hmm : ((filtered.map fun kv =>
      (kv.1, kv.2 / (filtered.map Prod.snd).sum)).map Prod.snd) =
      filtered.map (fun kv => kv.2 / (filtered.map Prod.snd).sum) := by
    rw [List.map_map]
    rfl
  have hpos : 0 < (filtered.map Prod.snd).sum := by
    apply List.sum_pos
    · intro x hx
      obtain ⟨kv, hkv, hx2⟩ := List.mem_map.1 hx
      exact hx2 ▸ priorityTable_pos kv (List.mem_of_mem_filter hkv)
    · simpa using hne
  simp only [hmm, sum_map_div]
  exact div_self (ne_of_gt hpos)

/-- When no prioritized name is present, the result is the empty mapping. -/
theorem genFFI_empty (rec : Record)
    (h : priorityTable.filter (fun kv => (rec.map Prod.fst).contains kv.1) = []) :
    generateFallbackFeatureImportance rec = [] := by
  unfold generateFallbackFeatureImportance
  simp only [h, List.map_nil]

end LazyModel

namespace LazyModel

/-! ### Helper lemmas about `predict` routing and state updates -/

/-- `_fallback_predict` on a record holding creatinine `c`: the stage is the
threshold bucket of `c` and both caches are rewritten. -/
theorem fallbackPredict_ok (st : ModelState) (rec : Record) (r : ℚ) (c : ℚ)
    (hc : rec.lookup creatinineKey = some c) :
    fallbackPredict st rec r = Except.ok (fallbackStage c,
      { st with
        stage_probabilities := some (generateFallbackProbabilities (fallbackStage c) r)
        feature_importance := some (generateFallbackFeatureImportance rec) }) := by
  simp [fallbackPredict, hc]

/-- `_fallback_predict` on a record without the creatinine column raises
`KeyError`. -/
theorem fallbackPredict_err (st : ModelState) (rec : Record) (r : ℚ)
    (hc : rec.lookup creatinineKey = none) :
    fallbackPredict st rec r = Except.error (PyErr.keyError creatinineKey) := by
  simp [fallbackPredict, hc]

/-- On any state without a usable model, `predict` behaves as a single
`_fallback_predict` call (with the first or the second random draw). -/
theorem predict_noUsable (st : ModelState) (rec : Record) (r r2 : ℚ)
    (h : noUsableModel st rec) :
    predict st rec r r2 = fallbackPredict st rec r ∨
    predict st rec r r2 = fallbackPredict st rec r2 := by
  by_cases hl : st.model_loaded = false
  · left
    simp [predict, hl]
  · have htf : tryFallback st rec r r2 = fallbackPredict st rec r ∨
        tryFallback st rec r r2 = fallbackPredict st rec r2 := by
      cases hfb : fallbackPredict st rec r with
      | ok res => left; simp [tryFallback, hfb]
      | error e => right; simp [tryFallback, hfb]
    rcases h with h | h | ⟨n, h⟩ | ⟨n, cap, h, hp⟩
    · exact absurd h hl
    · simpa [predict, hl, h] using htf
    · simpa [predict, hl, h] using htf
    · right
      simp [predict, hl, h, hp]

/-- A successful `_fallback_predict` leaves the model reference and both
load flags untouched. -/
theorem fallbackPredict_ok_fields (st : ModelState) (rec : Record) (r : ℚ)
    (s : Int) (st1 : ModelState)
    (h : fallbackPredict st rec r = Except.ok (s, st1)) :
    st1.model = st.model ∧ st1.model_loaded = st.model_loaded ∧
    st1.model_loading = st.model_loading := by
  unfold fallbackPredict at h
  split at h
  · exact absurd h (by simp)
  · obtain ⟨-, h2⟩ := by simpa using h
    subst h2
    exact ⟨rfl, rfl, rfl⟩

/-- The try-and-retry wrapper also leaves those fields untouched. -/
theorem tryFallback_ok_fields (st : ModelState) (rec : Record) (r r2 : ℚ)
    (s : Int) (st1 : ModelState)
    (h : tryFallback st rec r r2 = Except.ok (s, st1)) :
    st1.model = st.model ∧ st1.model_loaded = st.model_loaded ∧
    st1.model_loading = st.model_loading := by
  unfold tryFallback at h
  cases hfb : fallbackPredict st rec r with
  | ok res =>
    rw [hfb] at h
    obtain h2 : res = (s, st1) := by simpa using h
    exact fallbackPredict_ok_fields st rec r s st1 (h2 ▸ hfb)
  | error e =>
    rw [hfb] at h
    exact fallbackPredict_ok_fields st rec r2 s st1 h

/-- A returning `predict` call only rewrites the two caches: the model
reference and both load flags are unchanged. -/
theorem predict_ok_fields (st : ModelState) (rec : Record) (r r2 : ℚ)
    (s : Int) (st1 : ModelState)
    (h : predict st rec r r2 = Except.ok (s, st1)) :
    st1.model = st.model ∧ st1.model_loaded = st.model_loaded ∧
    st1.model_loading = st.model_loading := by
  unfold predict at h
  by_cases hl : st.model_loaded = false
  · rw [if_pos hl] at h
    exact fallbackPredict_ok_fields st rec r s st1 h
  · rw [if_neg hl] at h
    cases hm : st.model with
    | noneObj =>
      rw [← hm]
      simp only [hm] at h
      exact tryFallback_ok_fields st rec r r2 s st1 h
    | obj n cap =>
      rw [← hm]
      simp only [hm] at h
      cases cap with
      | none => exact tryFallback_ok_fields st rec r r2 s st1 h
      | some m =>
        cases hp : m.predictFn rec with
        | none =>
          simp only [hp] at h
          exact fallbackPredict_ok_fields st rec r2 s st1 h
        | some ps =>
          simp only [hp] at h
          cases hq : m.predictProba with
          | some f =>
            simp only [hq] at h
            cases hfr : f rec with
            | none =>
              simp only [hfr] at h
              exact fallbackPredict_ok_fields st rec r2 s st1 h
            | some cp =>
              simp only [hfr] at h
              obtain ⟨-, h2⟩ : ps = s ∧ _ = st1 := by simpa using h
              subst h2
              exact ⟨hm.symm, rfl, rfl⟩
          | none =>
            simp only [hq] at h
            obtain ⟨-, h2⟩ : ps = s ∧ _ = st1 := by simpa using h
            subst h2
            exact ⟨hm.symm, rfl, rfl⟩

/-- Field preservation, stated on the post-call state (an erroring call
raises before any cache write, so the state is unchanged there too). -/
theorem statePostPredict_fields (st : ModelState) (rec : Record) (r r2 : ℚ) :
    (statePostPredict st rec r r2).model = st.model ∧
    (statePostPredict st rec r r2).model_loaded = st.model_loaded ∧
    (statePostPredict st rec r r2).model_loading = st.model_loading := by
  unfold statePostPredict
  cases h : predict st rec r r2 with
  | ok res => exact predict_ok_fields st rec r r2 res.1 res.2 (by rw [h])
  | error e => exact ⟨rfl, rfl, rfl⟩

/-- Any sequence of `predict` calls preserves the model reference and both
load flags. -/
theorem applyCalls_fields (evs : List PredEvent) (st : ModelState) :
    (applyCalls st evs).model = st.model ∧
    (applyCalls st evs).model_loaded = st.model_loaded ∧
    (applyCalls st evs).model_loading = st.model_loading := by
  induction evs generalizing st with
  | nil => exact ⟨rfl, rfl, rfl⟩
  | cons e t ih =>
    have h1 := statePostPredict_fields st e.record e.r e.r2
    have h2 := ih (applyCall st e)
    unfold applyCalls at h2 ⊢
    simp only [List.foldl_cons]
    unfold applyCall at h2 ⊢
    exact ⟨h2.1.trans h1.1, h2.2.1.trans h1.2.1, h2.2.2.trans h1.2.2⟩

/-- Inversion of a successful `_fallback_predict`: the record held some
creatinine value, the stage is its bucket, and the probability cache now
holds the synthetic distribution for that stage. -/
theorem fallbackPredict_ok_inv (st : ModelState) (rec : Record) (r : ℚ)
    (s : Int) (st1 : ModelState)
    (h : fallbackPredict st rec r = Except.ok (s, st1)) :
    ∃ c, rec.lookup creatinineKey = some c ∧ s = fallbackStage c ∧
      st1.stage_probabilities =
        some (generateFallbackProbabilities (fallbackStage c) r) := by
  unfold fallbackPredict at h
  split at h
  · exact absurd h (by simp)
  next c heq =>
    obtain ⟨h1, h2⟩ := by simpa using h
    exact ⟨c, heq, h1.symm, by rw [← h2]⟩

end LazyModel

namespace LazyModel

/-! ### The claims -/

/-- C1 (amended): for every input record that contains the feature
"Créatinine (mg/L)", `predict` returns normally with an integer stage in
{0..5} whenever no usable model object is present (not ready, object
without a predict attribute, or an exception during real-model invocation).
The original unconditional claim fails: a record without that feature makes
the rule-based path raise a `KeyError` to the caller. -/
theorem C1_predict_total_with_creatinine (st : ModelState) (rec : Record)
    (r r2 : ℚ) (c : ℚ) (hc : rec.lookup creatinineKey = some c)
    (h : noUsableModel st rec) :
    ∃ st1, predict st rec r r2 = Except.ok (fallbackStage c, st1) ∧
      0 ≤ fallbackStage c ∧ fallbackStage c ≤ 5 := by
  rcases predict_noUsable st rec r r2 h with he | he
  · exact ⟨_, he.trans (fallbackPredict_ok st rec r c hc), fallbackStage_bounds c⟩
  · exact ⟨_, he.trans (fallbackPredict_ok st rec r2 c hc), fallbackStage_bounds c⟩

/-- C1 counterexample: on the freshly constructed state (model not loaded),
`predict` of the empty record raises a key-lookup error instead of
returning a stage, refuting "for every input record, predict never raises". -/
theorem C1_counterexample :
    predict initState [] 0 0 = Except.error (PyErr.keyError creatinineKey) := rfl

/-- C1 witness: a concrete record holding creatinine 250 on the fresh state. -/
theorem C1_witness :
    ∃ st1, predict initState [(creatinineKey, 250)] 0 0 =
      Except.ok (fallbackStage 250, st1) ∧
      0 ≤ fallbackStage 250 ∧ fallbackStage 250 ≤ 5 :=
  C1_predict_total_with_creatinine initState [(creatinineKey, 250)] 0 0 250
    rfl (Or.inl rfl)

/-- C2: for every record containing the creatinine feature with value `c`,
the rule-based fallback returns the stage of the ordered threshold table,
first true branch winning and boundaries exclusive: stage 5 on c > 200,
4 on 100 < c ≤ 200, 3 on 50 < c ≤ 100, 2 on 20 < c ≤ 50, 1 on 15 < c ≤ 20,
0 on c ≤ 15. -/
theorem C2_threshold_table (st : ModelState) (rec : Record) (r : ℚ) (c : ℚ)
    (hc : rec.lookup creatinineKey = some c) :
    ∃ st1, fallbackPredict st rec r = Except.ok (fallbackStage c, st1) ∧
      (200 < c → fallbackStage c = 5) ∧
      (100 < c ∧ c ≤ 200 → fallbackStage c = 4) ∧
      (50 < c ∧ c ≤ 100 → fallbackStage c = 3) ∧
      (20 < c ∧ c ≤ 50 → fallbackStage c = 2) ∧
      (15 < c ∧ c ≤ 20 → fallbackStage c = 1) ∧
      (c ≤ 15 → fallbackStage c = 0) := by
  refine ⟨_, fallbackPredict_ok st rec r c hc, ?_, ?_, ?_, ?_, ?_, ?_⟩ <;>
  · intro hcond
    unfold fallbackStage
    split_ifs <;>
      first
        | rfl
        | (exfalso
           try obtain ⟨ha, hb⟩ := hcond
           linarith)

/-- C2 witness: the boundary c = 200 yields stage 4, not 5. -/
theorem C2_witness :
    (∃ st1, fallbackPredict initState [(creatinineKey, 200)] 0 =
      Except.ok (fallbackStage 200, st1)) ∧ fallbackStage 200 = 4 := by
  obtain ⟨st1, hok, -, h4, -, -, -, -⟩ :=
    C2_threshold_table initState [(creatinineKey, 200)] 0 200 rfl
  exact ⟨⟨st1, hok⟩, h4 ⟨by norm_num, le_refl 200⟩⟩

/-- C3: for a predicted stage in {0..5} and a draw r in [0,1), the fallback
probability generator yields a dict over exactly {0,1,2,3,4,5} whose
predicted-stage entry is the confidence 0.75 + 0.2 r, lying in
[0.75, 0.95), and whose five other entries each hold
(1 - confidence) / 5. -/
theorem C3_fallback_probabilities (s : Int) (r : ℚ)
    (hs0 : 0 ≤ s) (hs5 : s ≤ 5) (hr0 : 0 ≤ r) (hr1 : r < 1) :
    (generateFallbackProbabilities s r).map Prod.fst = [0, 1, 2, 3, 4, 5] ∧
    (generateFallbackProbabilities s r).lookup s = some (3/4 + r * (2/10)) ∧
    3/4 ≤ 3/4 + r * (2/10) ∧ 3/4 + r * (2/10) < 19/20 ∧
    (∀ t, t ∈ stageRange → t ≠ s →
      (generateFallbackProbabilities s r).lookup t =
        some ((1 - (3/4 + r * (2/10))) / 5)) := by
  obtain ⟨h1, h2, h3, -⟩ := genProbs_spec s r hs0 hs5
  exact ⟨h1, h2, by linarith, by linarith, h3⟩

/-- C3 witness: stage 2 with draw 1/2. -/
theorem C3_witness :
    (generateFallbackProbabilities 2 (1/2)).map Prod.fst = [0, 1, 2, 3, 4, 5] ∧
    (generateFallbackProbabilities 2 (1/2)).lookup 2 = some (3/4 + (1/2) * (2/10)) := by
  obtain ⟨h1, h2, -⟩ := C3_fallback_probabilities 2 (1/2)
    (by norm_num) (by norm_num) (by norm_num) (by norm_num)
  exact ⟨h1, h2⟩

/-- C4 counterexample: with a successfully loaded model whose predict
returns stage 7 and which has no `predict_proba`, a `predict` call returns
and leaves `get_stage_probabilities()` keyed on seven stages, so the key
set is not exactly {0..5}. -/
theorem C4_counterexample :
    ∃ st1, predict stageSevenState [] 0 0 = Except.ok (7, st1) ∧
      (get_stage_probabilities st1).map Prod.fst ≠ [0, 1, 2, 3, 4, 5] ∧
      (7:Int) ∈ (get_stage_probabilities st1).map Prod.fst := by
  refine ⟨_, rfl, by decide, by decide⟩

/-- C4 (amended): after every `predict` call made while no usable model is
present — so the probabilities come from the rule-based fallback —
`get_stage_probabilities()` returns a mapping keyed exactly {0,1,2,3,4,5}
whose values sum to 1 exactly; a real model predicting a stage outside
{0..5} breaks the key-set half of the original claim. -/
theorem C4_stage_probabilities_fallback_path (st : ModelState) (rec : Record)
    (r r2 : ℚ) (s : Int) (st1 : ModelState) (h : noUsableModel st rec)
    (hok : predict st rec r r2 = Except.ok (s, st1)) :
    (get_stage_probabilities st1).map Prod.fst = [0, 1, 2, 3, 4, 5] ∧
    ((get_stage_probabilities st1).map Prod.snd).sum = 1 := by
  have main : ∀ rr, fallbackPredict st rec rr = Except.ok (s, st1) →
      (get_stage_probabilities st1).map Prod.fst = [0, 1, 2, 3, 4, 5] ∧
      ((get_stage_probabilities st1).map Prod.snd).sum = 1 := by
    intro rr hok2
    obtain ⟨c, -, -, hsp⟩ := fallbackPredict_ok_inv st rec rr s st1 hok2
    have hb := fallbackStage_bounds c
    obtain ⟨hk, -, -, hsum⟩ := genProbs_spec (fallbackStage c) rr hb.1 hb.2
    have hne : generateFallbackProbabilities (fallbackStage c) rr ≠ [] := by
      intro hnil
      rw [hnil] at hk
      simp at hk
    have hget : get_stage_probabilities st1 =
        generateFallbackProbabilities (fallbackStage c) rr := by
      simp [get_stage_probabilities, hsp, List.isEmpty_iff, hne]
    rw [hget]
    exact ⟨hk, hsum⟩
  rcases predict_noUsable st rec r r2 h with he | he <;> rw [he] at hok
  · exact main r hok
  · exact main r2 hok

/-- C4 witness: the fresh state with a creatinine-250 record. -/
theorem C4_witness :
    (get_stage_probabilities
      (statePostPredict initState [(creatinineKey, 250)] 0 0)).map Prod.fst
        = [0, 1, 2, 3, 4, 5] ∧
    ((get_stage_probabilities
      (statePostPredict initState [(creatinineKey, 250)] 0 0)).map Prod.snd).sum = 1 :=
  C4_stage_probabilities_fallback_path initState [(creatinineKey, 250)] 0 0
    (fallbackStage 250) _ (Or.inl rfl) rfl

/-- C5: the fallback feature-importance generator keeps exactly the
intersection of the 11-name priority table with the feature names of the
record (a name survives iff it is in both), renormalizes the surviving
weights to sum to 1, and returns the empty mapping — with no division
error — when no prioritized name is present. -/
theorem C5_fallback_importance (rec : Record) :
    ((generateFallbackFeatureImportance rec).map Prod.fst =
      (priorityTable.filter (fun kv => (rec.map Prod.fst).contains kv.1)).map Prod.fst) ∧
    (∀ k, k ∈ (generateFallbackFeatureImportance rec).map Prod.fst ↔
      k ∈ priorityTable.map Prod.fst ∧ k ∈ rec.map Prod.fst) ∧
    (priorityTable.filter (fun kv => (rec.map Prod.fst).contains kv.1) ≠ [] →
      ((generateFallbackFeatureImportance rec).map Prod.snd).sum = 1) ∧
    (priorityTable.filter (fun kv => (rec.map Prod.fst).contains kv.1) = [] →
      generateFallbackFeatureImportance rec = []) :=
  ⟨genFFI_keys rec, fun k => genFFI_mem rec k, genFFI_sum rec, genFFI_empty rec⟩

/-- C5 witness: a record with only "Age" keeps one weight summing to 1, and
a record with no prioritized name gives the empty mapping. -/
theorem C5_witness :
    ((generateFallbackFeatureImportance [("Age", (50:ℚ))]).map Prod.snd).sum = 1 ∧
    generateFallbackFeatureImportance [("Inconnu", (1:ℚ))] = [] :=
  ⟨(C5_fallback_importance [("Age", 50)]).2.2.1 (by decide),
   (C5_fallback_importance [("Inconnu", 1)]).2.2.2 (by decide)⟩

/-- C6: `is_model_ready()` is false at construction and stays false through
any `predict` calls made before the background load completes; completing
the load (success or failure-with-fallback) makes it true; `predict` calls
never change the model reference or the loaded flag, so readiness never
reverts and the transition happens exactly once per execution trace. -/
theorem C6_readiness_lifecycle :
    is_model_ready initState = false ∧
    (∀ pre, is_model_ready (applyCalls initState pre) = false) ∧
    (∀ st o, is_model_ready (completeLoad st o) = true) ∧
    (∀ st evs, (applyCalls st evs).model_loaded = st.model_loaded ∧
      (applyCalls st evs).model = st.model) ∧
    (∀ pre o post, is_model_ready (runTrace pre o post) = true) := by
  refine ⟨rfl, ?_, ?_, ?_, ?_⟩
  · intro pre
    have h := (applyCalls_fields pre initState).2.1
    simp only [is_model_ready, h]
    rfl
  · intro st o
    cases o <;> rfl
  · intro st evs
    exact ⟨(applyCalls_fields evs st).2.1, (applyCalls_fields evs st).1⟩
  · intro pre o post
    unfold runTrace
    have h1 := (applyCalls_fields post (completeLoad (applyCalls initState pre) o)).2.1
    have h2 : (completeLoad (applyCalls initState pre) o).model_loaded = true := by
      cases o <;> rfl
    simp only [is_model_ready, h1, h2]

/-- C7: before any `predict` call (at construction and after either load
outcome) both accessors return the empty mapping, and at every state
`get_status()` reports the two flags verbatim and a `model_type` that is
the sentinel "None" exactly when no object is stored, else the stored
object type name. -/
theorem C7_pre_predict_accessors (o : LoadOutcome) (st : ModelState) :
    (get_stage_probabilities initState = [] ∧
     get_feature_importance initState = [] ∧
     get_stage_probabilities (completeLoad initState o) = [] ∧
     get_feature_importance (completeLoad initState o) = []) ∧
    ((get_status st).model_loaded = st.model_loaded ∧
     (get_status st).model_loading = st.model_loading ∧
     (st.model = ModelObj.noneObj → (get_status st).model_type = "None") ∧
     (∀ n cap, st.model = ModelObj.obj n cap → (get_status st).model_type = n)) := by
  constructor
  · refine ⟨rfl, rfl, ?_, ?_⟩ <;>
      cases o <;>
        rfl
  · refine ⟨rfl, rfl, ?_, ?_⟩
    · intro h
      simp [get_status, modelTypeName, h]
    · intro n cap h
      simp [get_status, modelTypeName, h]

/-- C7 witness: the fresh state reports "None"; after a failed load the
fallback classifier type name is reported. -/
theorem C7_witness :
    get_stage_probabilities initState = [] ∧
    (get_status initState).model_type = "None" ∧
    (get_status (completeLoad initState LoadOutcome.failure)).model_type =
      "RandomForestClassifier" := by
  obtain ⟨⟨h1, -, -, -⟩, -⟩ := C7_pre_predict_accessors LoadOutcome.failure initState
  obtain ⟨-, ⟨-, -, h2, -⟩⟩ := C7_pre_predict_accessors LoadOutcome.failure initState
  obtain ⟨-, ⟨-, -, -, h3⟩⟩ :=
    C7_pre_predict_accessors LoadOutcome.failure (completeLoad initState LoadOutcome.failure)
  exact ⟨h1, h2 rfl, h3 "RandomForestClassifier" (some fallbackCap) rfl⟩

/-- C8: `get_status()` is a pure read of the state: calling it twice with
no intervening state change returns identical results and leaves the state
unchanged both times. -/
theorem C8_get_status_idempotent (st : ModelState) :
    (get_statusM st).1 = (get_statusM (get_statusM st).2).1 ∧
    (get_statusM st).2 = st ∧ (get_statusM (get_statusM st).2).2 = st :=
  ⟨rfl, rfl, rfl⟩

/-- C9: for every record without the key "Créatinine (mg/L)", any `predict`
call that routes to the rule-based fallback (model not loaded, object
without a predict attribute, or a real-model exception) raises a key-lookup
error to the caller instead of returning a stage. -/
theorem C9_missing_creatinine_raises (st : ModelState) (rec : Record) (r r2 : ℚ)
    (hmiss : rec.lookup creatinineKey = none) (h : noUsableModel st rec) :
    predict st rec r r2 = Except.error (PyErr.keyError creatinineKey) := by
  rcases predict_noUsable st rec r r2 h with he | he <;>
    rw [he] <;>
      exact fallbackPredict_err st rec _ hmiss

/-- C9 witness: a record holding only "Age" on the fresh state. -/
theorem C9_witness :
    predict initState [("Age", 63)] 0 0 =
      Except.error (PyErr.keyError creatinineKey) :=
  C9_missing_creatinine_raises initState [("Age", 63)] 0 0 (by decide) (Or.inl rfl)

/-- C10: for a predicted stage s outside {0..5}, the fallback probability
generator yields a dict with the seven keys 0..5 and s, where s holds the
confidence and each of the six stages 0..5 holds (1 - confidence) / 6; the
values still sum to 1 but the domain is no longer exactly {0..5}. -/
theorem C10_out_of_range_probabilities (s : Int) (r : ℚ) (hs : s < 0 ∨ 5 < s) :
    (generateFallbackProbabilities s r).map Prod.fst = [0, 1, 2, 3, 4, 5, s] ∧
    ((generateFallbackProbabilities s r).map Prod.fst).length = 7 ∧
    (generateFallbackProbabilities s r).lookup s = some (3/4 + r * (2/10)) ∧
    (∀ t, t ∈ stageRange → (generateFallbackProbabilities s r).lookup t =
      some ((1 - (3/4 + r * (2/10))) / 6)) ∧
    ((generateFallbackProbabilities s r).map Prod.snd).sum = 1 := by
  obtain ⟨h1, h2, h3, h4⟩ := genProbs_out_spec s r hs
  refine ⟨h1, ?_, h2, h3, h4⟩
  rw [h1]
  rfl

/-- C10 witness: stage 7 with draw 0. -/
theorem C10_witness :
    (generateFallbackProbabilities 7 0).map Prod.fst = [0, 1, 2, 3, 4, 5, 7] ∧
    ((generateFallbackProbabilities 7 0).map Prod.snd).sum = 1 := by
  obtain ⟨h1, -, -, -, h5⟩ :=
    C10_out_of_range_probabilities 7 0 (Or.inr (by norm_num))
  exact ⟨h1, h5⟩

end LazyModel
